import Mathlib

/-!
Shallow embedding of the HearthSim/hsreplaynet-lambdas upload-intake handlers.

The repository holds two variants of the same Lambda handler:
* `src/lambdas/uploads.py`   — preferred store is a Redis cache, fallback is an
  S3 object under `raw/{ts_path}/{shortid}.descriptor.json`;
* `src/lambdas/uploaders.py` — preferred store is a Postgres table, fallback is
  an S3 object under `descriptors/{shortid}.json` in a dedicated bucket, with a
  `FORCE_S3` mode that skips the preferred store entirely.

Python dicts are embedded as association lists, JSON values as an inductive
type, and the per-request sources of nondeterminism (the generated shortid, the
`random.randrange(0, 100)` draw, the wall-clock timestamp renderings, and
whether each store write succeeds or raises) as an explicit environment record.
The `base64.b64decode` / `json.loads` pipeline applied to the request body is
abstracted as a `decode : String → Option Json` parameter, `none` standing for
the case where one of those library calls raises.  Each handler returns the
value of the Python `return` statement (or the uncaught exception it raises)
together with a log of the store writes it attempted and the presigned-URL
requests it issued.
-/

namespace UploadLambdas

/-- JSON values, as produced by `json.loads`. -/
inductive Json where
  | null
  | bool (b : Bool)
  | num (n : Int)
  | str (s : String)
  | arr (elems : List Json)
  | obj (fields : List (String × Json))

/-- A JSON object / Python dict, as an insertion-ordered association list. -/
abbrev Obj := List (String × Json)

/-- Key lookup in a JSON object (Python `d[k]` / `k in d`; keys are unique in
any dict produced by `json.loads`, and we take the first match). -/
def Obj.lookup (o : Obj) (k : String) : Option Json :=
  (o.find? (fun kv => kv.1 == k)).map Prod.snd

/-- The key list of a JSON object. -/
def Obj.keys (o : Obj) : List String :=
  o.map Prod.fst

/-- Python dict assignment `d[k] = v`: overwrite the value in place when the
key is present, append a new final entry otherwise. -/
def Obj.setKey (o : Obj) (k : String) (v : Json) : Obj :=
  if o.any (fun kv => kv.1 == k) then
    o.map (fun kv => if kv.1 == k then (kv.1, v) else kv)
  else
    o ++ [(k, v)]

/-- `isinstance(x, dict)`. -/
def Json.isDict : Json → Bool
  | .obj _ => true
  | _ => false

/-- Lookup inside a JSON value that is expected to be an object. -/
def Json.lookupKey : Json → String → Option Json
  | .obj o, k => Obj.lookup o k
  | _, _ => none

/-- The characters Python's `str.split()` (no separator argument) splits on. -/
def pyIsSpace (c : Char) : Bool :=
  c == ' ' || c == '\t' || c == '\n' || c == '\r' || c == '\x0b' || c == '\x0c'

/-- Worker for `pySplit`: accumulates the current word in reverse. -/
def splitWordsAux : List Char → List Char → List String
  | [], cur => if cur.isEmpty then [] else [String.mk cur.reverse]
  | c :: rest, cur =>
    if pyIsSpace c then
      if cur.isEmpty then splitWordsAux rest []
      else String.mk cur.reverse :: splitWordsAux rest []
    else splitWordsAux rest (c :: cur)

/-- Python `s.split()`: the whitespace-separated words of `s`, with empty
components dropped. -/
def pySplit (s : String) : List String :=
  splitWordsAux s.data []

/-- Python `s.lower()` (ASCII case folding suffices for header names). -/
def strLower (s : String) : String :=
  String.mk (s.data.map Char.toLower)

/-- Last-wins lookup in a string-valued association list, matching the Python
dict comprehension `{k.lower(): v for k, v in headers.items()}` in which a
later colliding key overwrites an earlier one. -/
def lookupStr (l : List (String × String)) (k : String) : Option String :=
  l.foldl (fun acc kv => if kv.1 == k then some kv.2 else acc) none

/-- The inbound API-gateway event (§6 of the spec): a dict with `headers`,
an optional `query` dict, a base64 `body`, and `source_ip`. -/
structure Event where
  headers : List (String × String)
  query : Option (List (String × String))
  body : String
  source_ip : String

/-- The event dict after `event.pop("body")`: what the handlers capture inside
the persisted descriptor. -/
structure EventContext where
  headers : List (String × String)
  query : Option (List (String × String))
  source_ip : String

/-- `event.pop("body")`: the event minus its `body` entry. -/
def Event.sansBody (e : Event) : EventContext :=
  { headers := e.headers, query := e.query, source_ip := e.source_ip }

/-- A string-valued dict rendered as a JSON object. -/
def headersToJson (l : List (String × String)) : Json :=
  Json.obj (l.map (fun kv => (kv.1, Json.str kv.2)))

/-- The captured event context as the JSON object `json.dumps` serializes:
its `body` key is gone, the rest of the entries remain. -/
def EventContext.toJson (e : EventContext) : Json :=
  Json.obj
    ([("headers", headersToJson e.headers)]
      ++ (match e.query with
          | some q => [("query", headersToJson q)]
          | none => [])
      ++ [("source_ip", Json.str e.source_ip)])

/-- The exceptions the handlers can raise (all are plain `Exception`s in the
source; the constructor records which `raise` site / library call fired). -/
inductive Err where
  | authHeaderRequired
  | authSchemeAndToken
  | invalidJson
  | metadataNotDict
  | storeWriteFailed
deriving DecidableEq

/-- `LOG_PUT_EXPIRATION = 60 * 60 * 24`. -/
def LOG_PUT_EXPIRATION : Nat := 60 * 60 * 24

/-- `PERCENT_CANARY_UPLOADS = 25`. -/
def PERCENT_CANARY_UPLOADS : Nat := 25

/-- Default of the `RAW_UPLOADS_BUCKET` environment variable. -/
def RAW_UPLOADS_BUCKET : String := "hsreplaynet-uploads"

/-- Default of the `DESCRIPTORS_BUCKET` environment variable (uploaders.py). -/
def DESCRIPTORS_BUCKET : String := "hsreplaynet-descriptors"

/-- `"canary" in event["query"]` guarded by `event and "query" in event`
(the handlers only call this on events that hold at least a `headers` entry,
so the dict-truthiness guard is equivalent to the `query` key being present).
-/
def hasCanaryQuery : Option (List (String × String)) → Bool
  | some q => q.any (fun kv => kv.1 == "canary")
  | none => false

/-- `is_canary_upload(event)` (identical in both modules), with the
`random.randrange(0, 100)` draw passed in as `dice_roll`. -/
def is_canary_upload (query : Option (List (String × String))) (dice_roll : Nat) : Bool :=
  if hasCanaryQuery query then
    true
  else if dice_roll < PERCENT_CANARY_UPLOADS then
    true
  else
    false

/-- `get_upload_url(shortid)` (identical in both modules). -/
def get_upload_url (shortid : String) : String :=
  "https://hsreplay.net/uploads/upload/" ++ shortid ++ "/"

/-- `get_auth_token(headers)` (identical in both modules): lowercase the
header names (later duplicates winning, as in the dict comprehension), require
an `authorization` entry whose value splits into exactly a scheme and a token,
and return the token. -/
def get_auth_token (headers : List (String × String)) : Except Err String :=
  let lowercase_headers := headers.map (fun kv => (strLower kv.1, kv.2))
  match lookupStr lowercase_headers "authorization" with
  | none => .error .authHeaderRequired
  | some v =>
    match pySplit v with
    | [_scheme, token] => .ok token
    | _ => .error .authSchemeAndToken

/-- One `S3.put_object(ACL=..., Key=..., Body=json.dumps(body).encode("utf8"),
Bucket=...)` call; `body` holds the JSON value handed to `json.dumps`. -/
structure S3Put where
  acl : String
  key : String
  body : Json
  bucket : String

/-- The parameters of one `S3.generate_presigned_url("put_object", ...)` call.
-/
structure PresignCall where
  bucket : String
  key : String
  contentType : String
  expiresIn : Nat
  httpMethod : String
deriving DecidableEq

/-- A deterministic stand-in for the URL string boto3 signs for the given
request parameters. -/
def presigned_url_string (c : PresignCall) : String :=
  "https://" ++ c.bucket ++ ".s3.amazonaws.com/" ++ c.key

/-- The side effects of one handler invocation.  Writes to the preferred store
(the Redis `SET` of uploads.py / the Postgres insert of uploaders.py) are
recorded as `(shortid, descriptor)` pairs; `*Attempts` logs every call made,
the lists without that suffix log the calls that committed (a write that
raises commits nothing). -/
structure Effects where
  preferredAttempts : List (String × Json)
  preferredWrites : List (String × Json)
  s3PutAttempts : List S3Put
  s3Puts : List S3Put
  presignCalls : List PresignCall

/-- No side effects yet. -/
def Effects.empty : Effects :=
  { preferredAttempts := [], preferredWrites := [], s3PutAttempts := [],
    s3Puts := [], presignCalls := [] }

/-- The dict a handler returns on success. -/
structure Response where
  put_url : String
  shortid : String
  url : String

/-- The per-request environment: every value the handlers obtain from the
outside world rather than from the event.  `shortid` is the `shortuuid.uuid()`
draw, `dice_roll` the `random.randrange(0, 100)` draw, `ts_path` the
`get_timestamp()` rendering taken in the uploads.py handler body,
`ts_path_presign` the `get_timestamp()` rendering taken inside
uploaders.py's `get_presigned_put_url`, `preferred_ok` whether the
preferred-store write commits (`false` = it raises), `fallback_ok` the same
for the fallback `S3.put_object`, and `force_s3` the `FORCE_S3` flag of
uploaders.py. -/
structure Env where
  shortid : String
  dice_roll : Nat
  ts_path : String
  ts_path_presign : String
  preferred_ok : Bool
  fallback_ok : Bool
  force_s3 : Bool

namespace Uploads

/-- The descriptor dict built by uploads.py's handler. -/
structure Descriptor where
  gateway_headers : List (String × String)
  shortid : String
  source_ip : String
  upload_metadata : Obj
  event : EventContext

/-- The descriptor as the JSON object passed to `json.dumps`. -/
def Descriptor.toJson (d : Descriptor) : Json :=
  Json.obj
    [("gateway_headers", headersToJson d.gateway_headers),
     ("shortid", Json.str d.shortid),
     ("source_ip", Json.str d.source_ip),
     ("upload_metadata", Json.obj d.upload_metadata),
     ("event", d.event.toJson)]

/-- uploads.py `save_descriptor_to_s3(descriptor, ts_path)`. -/
def save_descriptor_to_s3 (descriptor : Descriptor) (ts_path : String) : S3Put :=
  { acl := "private",
    key := "raw/" ++ ts_path ++ "/" ++ descriptor.shortid ++ ".descriptor.json",
    body := descriptor.toJson,
    bucket := RAW_UPLOADS_BUCKET }

/-- uploads.py `generate_log_upload_address_handler(event, context)`.

Mirrors the source line by line: authenticate, draw the shortid, render
`ts_path` once, decode the body popped off the event, reject non-dict
metadata, classify the canary and mark the metadata, build the descriptor,
try the Redis write and fall back to S3 when it raises (an S3 failure there
propagates), then request the presigned PUT URL and return the response.
The presigned-URL request is issued only on the paths where persistence did
not raise, exactly as in the source. -/
def generate_log_upload_address_handler (decode : String → Option Json)
    (env : Env) (event : Event) : Except Err Response × Effects :=
  let gateway_headers := event.headers
  match get_auth_token gateway_headers with
  | .error e => (.error e, Effects.empty)
  | .ok _auth_token =>
    let shortid := env.shortid
    let ts_path := env.ts_path
    match decode event.body with
    | none => (.error .invalidJson, Effects.empty)
    | some (.obj parsed_metadata) =>
      let is_canary := is_canary_upload event.query env.dice_roll
      let upload_metadata :=
        if is_canary then Obj.setKey parsed_metadata "canary" (.bool is_canary)
        else parsed_metadata
      let descriptor : Descriptor :=
        { gateway_headers := gateway_headers,
          shortid := shortid,
          source_ip := event.source_ip,
          upload_metadata := upload_metadata,
          event := event.sansBody }
      let d := descriptor.toJson
      let presign : PresignCall :=
        { bucket := RAW_UPLOADS_BUCKET,
          key := "raw/" ++ ts_path ++ "/" ++ shortid ++ "."
            ++ (if !is_canary then "power.log" else "canary.log"),
          contentType := "text/plain",
          expiresIn := 60 * 60 * 24,
          httpMethod := "PUT" }
      let response : Response :=
        { put_url := presigned_url_string presign,
          shortid := shortid,
          url := get_upload_url shortid }
      if env.preferred_ok then
        (.ok response,
         { preferredAttempts := [(shortid, d)], preferredWrites := [(shortid, d)],
           s3PutAttempts := [], s3Puts := [], presignCalls := [presign] })
      else
        let put := save_descriptor_to_s3 descriptor ts_path
        if env.fallback_ok then
          (.ok response,
           { preferredAttempts := [(shortid, d)], preferredWrites := [],
             s3PutAttempts := [put], s3Puts := [put], presignCalls := [presign] })
        else
          (.error .storeWriteFailed,
           { preferredAttempts := [(shortid, d)], preferredWrites := [],
             s3PutAttempts := [put], s3Puts := [], presignCalls := [] })
    | some _ => (.error .metadataNotDict, Effects.empty)

end Uploads

namespace Uploaders

/-- The descriptor dict built by uploaders.py's handler. -/
structure Descriptor where
  shortid : String
  upload_metadata : Obj
  event : EventContext

/-- The descriptor as the JSON object passed to `json.dumps`. -/
def Descriptor.toJson (d : Descriptor) : Json :=
  Json.obj
    [("shortid", Json.str d.shortid),
     ("upload_metadata", Json.obj d.upload_metadata),
     ("event", d.event.toJson)]

/-- uploaders.py `save_descriptor_to_s3(descriptor)`: the descriptor bucket
holds `descriptors/{shortid}.json`; no timestamp appears in the key. -/
def save_descriptor_to_s3 (descriptor : Descriptor) : S3Put :=
  { acl := "private",
    key := "descriptors/" ++ descriptor.shortid ++ ".json",
    body := descriptor.toJson,
    bucket := DESCRIPTORS_BUCKET }

/-- uploaders.py `get_upload_metadata(event, is_canary)`: decode the body
popped off the event, reject anything that is not a JSON dict, and mark the
metadata with `canary = True` when the request was classified canary. -/
def get_upload_metadata (decode : String → Option Json) (body : String)
    (is_canary : Bool) : Except Err Obj :=
  match decode body with
  | none => .error .invalidJson
  | some (.obj upload_metadata) =>
    .ok (if is_canary then Obj.setKey upload_metadata "canary" (.bool is_canary)
         else upload_metadata)
  | some _ => .error .metadataNotDict

/-- uploaders.py `get_presigned_put_url(shortid, is_canary)`: renders its own
`ts_path = get_timestamp()` (passed in as `ts_now`, the clock reading at this
call). -/
def get_presigned_put_url (ts_now : String) (shortid : String)
    (is_canary : Bool) : PresignCall :=
  let ts_path := ts_now
  let log_key_suffix := if !is_canary then "power.log" else "canary.log"
  let s3_powerlog_key := "raw/" ++ ts_path ++ "/" ++ shortid ++ "." ++ log_key_suffix
  { bucket := RAW_UPLOADS_BUCKET,
    key := s3_powerlog_key,
    contentType := "text/plain",
    expiresIn := LOG_PUT_EXPIRATION,
    httpMethod := "PUT" }

/-- uploaders.py `generate_log_upload_address_handler(event, context)`.

Mirrors the source: authenticate, draw the shortid, classify the canary,
decode and mark the metadata (popping the body off the event), build the
descriptor, persist it — directly to S3 when `FORCE_S3` is set, otherwise
trying Postgres and falling back to S3 when the write raises (an S3 failure
propagating) — then request the presigned PUT URL (which renders its own
timestamp) and return the response. -/
def generate_log_upload_address_handler (decode : String → Option Json)
    (env : Env) (event : Event) : Except Err Response × Effects :=
  match get_auth_token event.headers with
  | .error e => (.error e, Effects.empty)
  | .ok _auth_token =>
    let shortid := env.shortid
    let is_canary := is_canary_upload event.query env.dice_roll
    match get_upload_metadata decode event.body is_canary with
    | .error e => (.error e, Effects.empty)
    | .ok upload_metadata =>
      let descriptor : Descriptor :=
        { shortid := shortid,
          upload_metadata := upload_metadata,
          event := event.sansBody }
      let d := descriptor.toJson
      let presign := get_presigned_put_url env.ts_path_presign shortid is_canary
      let response : Response :=
        { put_url := presigned_url_string presign,
          shortid := shortid,
          url := get_upload_url shortid }
      if env.force_s3 then
        let put := save_descriptor_to_s3 descriptor
        if env.fallback_ok then
          (.ok response,
           { preferredAttempts := [], preferredWrites := [],
             s3PutAttempts := [put], s3Puts := [put], presignCalls := [presign] })
        else
          (.error .storeWriteFailed,
           { preferredAttempts := [], preferredWrites := [],
             s3PutAttempts := [put], s3Puts := [], presignCalls := [] })
      else if env.preferred_ok then
        (.ok response,
         { preferredAttempts := [(shortid, d)], preferredWrites := [(shortid, d)],
           s3PutAttempts := [], s3Puts := [], presignCalls := [presign] })
      else
        let put := save_descriptor_to_s3 descriptor
        if env.fallback_ok then
          (.ok response,
           { preferredAttempts := [(shortid, d)], preferredWrites := [],
             s3PutAttempts := [put], s3Puts := [put], presignCalls := [presign] })
        else
          (.error .storeWriteFailed,
           { preferredAttempts := [(shortid, d)], preferredWrites := [],
             s3PutAttempts := [put], s3Puts := [], presignCalls := [] })

end Uploaders

/-- The last `n` characters of a string, in reverse order; used to separate
the object-key namespaces by their distinct endings. -/
def lastChars (s : String) (n : Nat) : List Char :=
  s.data.reverse.take n

/-- Whether the first list is an initial segment of the second. -/
def isInitialSeg : List Char → List Char → Bool
  | [], _ => true
  | _ :: _, [] => false
  | a :: as, b :: bs => a == b && isInitialSeg as bs

/-- Whether `sub` occurs contiguously inside `l`. -/
def containsSubList (sub : List Char) : List Char → Bool
  | [] => isInitialSeg sub []
  | c :: rest => isInitialSeg sub (c :: rest) || containsSubList sub rest

/-- Whether `sub` occurs as a substring of `s`. -/
def strContainsSub (s sub : String) : Bool :=
  containsSubList sub.data s.data

/-! Concrete sample requests, mirroring `src/tests/test_uploads.py`'s mock
event (`Authorization: Token Foo`, body = base64 of `{}`, source ip
127.0.0.1). -/

/-- The test-suite event. -/
def sampleEvent : Event :=
  { headers := [("authorization", "Token Foo")],
    query := none,
    body := "e30=",
    source_ip := "127.0.0.1" }

/-- The test-suite event with an explicit `canary` query parameter. -/
def sampleEventCanary : Event :=
  { sampleEvent with query := some [("canary", "1")] }

/-- Decode pipeline behaviour on the sample body `e30=` (base64 of `{}`):
an empty JSON object. -/
def decodeEmptyObj : String → Option Json := fun _ => some (.obj [])

/-- Decode pipeline behaviour on a body that is not valid JSON (such as the
test suite's base64 of `bad data`): `json.loads` raises. -/
def decodeRaises : String → Option Json := fun _ => none

/-- Decode pipeline behaviour on a body holding the JSON array `[]`. -/
def decodeArr : String → Option Json := fun _ => some (.arr [])

/-- Decode pipeline behaviour on a body holding `{"canary": false}`. -/
def decodeCanaryFalse : String → Option Json :=
  fun _ => some (.obj [("canary", .bool false)])

/-- A healthy environment: both stores up, dice roll 99 (no random canary),
a 22-character shortid, `FORCE_S3` unset. -/
def envHealthy : Env :=
  { shortid := "sampleshortid123456789",
    dice_roll := 99,
    ts_path := "2016/01/02/03/04",
    ts_path_presign := "2016/01/02/03/05",
    preferred_ok := true,
    fallback_ok := true,
    force_s3 := false }

/-- `envHealthy` with the preferred store raising on write. -/
def envPreferredDown : Env :=
  { envHealthy with preferred_ok := false }

/-- `envHealthy` with `FORCE_S3` set. -/
def envForceS3 : Env :=
  { envHealthy with force_s3 := true }

/-! ## Helper lemmas -/

/-- Case characterization of the uploads.py handler: it either raises before
any store write or presigned-URL issuance, or it decodes the body into a JSON
dict, attempts the preferred write once, and follows one of the three
persistence outcomes determined by the health of the two stores. -/
theorem uploads_handler_cases (decode : String → Option Json) (env : Env)
    (event : Event) :
    (∃ e, Uploads.generate_log_upload_address_handler decode env event
      = (.error e, Effects.empty))
    ∨ ∃ parsed_metadata,
        decode event.body = some (.obj parsed_metadata)
        ∧ (let is_canary := is_canary_upload event.query env.dice_roll
           let descriptor : Uploads.Descriptor :=
             { gateway_headers := event.headers, shortid := env.shortid,
               source_ip := event.source_ip,
               upload_metadata :=
                 if is_canary then
                   Obj.setKey parsed_metadata "canary" (.bool is_canary)
                 else parsed_metadata,
               event := event.sansBody }
           let d := descriptor.toJson
           let put := Uploads.save_descriptor_to_s3 descriptor env.ts_path
           let presign : PresignCall :=
             { bucket := RAW_UPLOADS_BUCKET,
               key := "raw/" ++ env.ts_path ++ "/" ++ env.shortid ++ "."
                 ++ (if !is_canary then "power.log" else "canary.log"),
               contentType := "text/plain", expiresIn := 60 * 60 * 24,
               httpMethod := "PUT" }
           let response : Response :=
             { put_url := presigned_url_string presign, shortid := env.shortid,
               url := get_upload_url env.shortid }
           (env.preferred_ok = true
             ∧ Uploads.generate_log_upload_address_handler decode env event
               = (.ok response,
                  { preferredAttempts := [(env.shortid, d)],
                    preferredWrites := [(env.shortid, d)],
                    s3PutAttempts := [], s3Puts := [],
                    presignCalls := [presign] }))
           ∨ (env.preferred_ok = false ∧ env.fallback_ok = true
             ∧ Uploads.generate_log_upload_address_handler decode env event
               = (.ok response,
                  { preferredAttempts := [(env.shortid, d)],
                    preferredWrites := [],
                    s3PutAttempts := [put], s3Puts := [put],
                    presignCalls := [presign] }))
           ∨ (env.preferred_ok = false ∧ env.fallback_ok = false
             ∧ Uploads.generate_log_upload_address_handler decode env event
               = (.error .storeWriteFailed,
                  { preferredAttempts := [(env.shortid, d)],
                    preferredWrites := [],
                    s3PutAttempts := [put], s3Puts := [],
                    presignCalls := [] }))) := by
  simp only [Uploads.generate_log_upload_address_handler]
  cases hga : get_auth_token event.headers with
  | error e => exact .inl ⟨e, rfl⟩
  | ok tok =>
    cases hdec : decode event.body with
    | none => exact .inl ⟨.invalidJson, rfl⟩
    | some v =>
      cases v with
      | null => exact .inl ⟨.metadataNotDict, rfl⟩
      | bool b => exact .inl ⟨.metadataNotDict, rfl⟩
      | num n => exact .inl ⟨.metadataNotDict, rfl⟩
      | str s => exact .inl ⟨.metadataNotDict, rfl⟩
      | arr xs => exact .inl ⟨.metadataNotDict, rfl⟩
      | obj parsed_metadata =>
        refine .inr ⟨parsed_metadata, rfl, ?_⟩
        cases hp : env.preferred_ok with
        | true => exact .inl ⟨rfl, rfl⟩
        | false =>
          cases hf : env.fallback_ok with
          | true => exact .inr (.inl ⟨rfl, rfl, rfl⟩)
          | false => exact .inr (.inr ⟨rfl, rfl, rfl⟩)

/-- Case characterization of the uploaders.py handler: it either raises
before any store write or presigned-URL issuance, or it decodes the body
into a JSON dict and follows one of the five persistence outcomes determined
by `FORCE_S3` and the health of the two stores. -/
theorem uploaders_handler_cases (decode : String → Option Json) (env : Env)
    (event : Event) :
    (∃ e, Uploaders.generate_log_upload_address_handler decode env event
      = (.error e, Effects.empty))
    ∨ ∃ upload_metadata,
        Uploaders.get_upload_metadata decode event.body
            (is_canary_upload event.query env.dice_roll) = .ok upload_metadata
        ∧ (let is_canary := is_canary_upload event.query env.dice_roll
           let descriptor : Uploaders.Descriptor :=
             { shortid := env.shortid, upload_metadata := upload_metadata,
               event := event.sansBody }
           let d := descriptor.toJson
           let put := Uploaders.save_descriptor_to_s3 descriptor
           let presign :=
             Uploaders.get_presigned_put_url env.ts_path_presign env.shortid is_canary
           let response : Response :=
             { put_url := presigned_url_string presign, shortid := env.shortid,
               url := get_upload_url env.shortid }
           (env.force_s3 = true ∧ env.fallback_ok = true
             ∧ Uploaders.generate_log_upload_address_handler decode env event
               = (.ok response,
                  { preferredAttempts := [], preferredWrites := [],
                    s3PutAttempts := [put], s3Puts := [put],
                    presignCalls := [presign] }))
           ∨ (env.force_s3 = true ∧ env.fallback_ok = false
             ∧ Uploaders.generate_log_upload_address_handler decode env event
               = (.error .storeWriteFailed,
                  { preferredAttempts := [], preferredWrites := [],
                    s3PutAttempts := [put], s3Puts := [],
                    presignCalls := [] }))
           ∨ (env.force_s3 = false ∧ env.preferred_ok = true
             ∧ Uploaders.generate_log_upload_address_handler decode env event
               = (.ok response,
                  { preferredAttempts := [(env.shortid, d)],
                    preferredWrites := [(env.shortid, d)],
                    s3PutAttempts := [], s3Puts := [],
                    presignCalls := [presign] }))
           ∨ (env.force_s3 = false ∧ env.preferred_ok = false
               ∧ env.fallback_ok = true
             ∧ Uploaders.generate_log_upload_address_handler decode env event
               = (.ok response,
                  { preferredAttempts := [(env.shortid, d)],
                    preferredWrites := [],
                    s3PutAttempts := [put], s3Puts := [put],
                    presignCalls := [presign] }))
           ∨ (env.force_s3 = false ∧ env.preferred_ok = false
               ∧ env.fallback_ok = false
             ∧ Uploaders.generate_log_upload_address_handler decode env event
               = (.error .storeWriteFailed,
                  { preferredAttempts := [(env.shortid, d)],
                    preferredWrites := [],
                    s3PutAttempts := [put], s3Puts := [],
                    presignCalls := [] }))) := by
  simp only [Uploaders.generate_log_upload_address_handler]
  cases hga : get_auth_token event.headers with
  | error e => exact .inl ⟨e, rfl⟩
  | ok tok =>
    cases hmd : Uploaders.get_upload_metadata decode event.body
        (is_canary_upload event.query env.dice_roll) with
    | error e => exact .inl ⟨e, rfl⟩
    | ok upload_metadata =>
      refine .inr ⟨upload_metadata, rfl, ?_⟩
      cases hforce : env.force_s3 with
      | true =>
        cases hf : env.fallback_ok with
        | true => exact .inl ⟨rfl, rfl, rfl⟩
        | false => exact .inr (.inl ⟨rfl, rfl, rfl⟩)
      | false =>
        cases hp : env.preferred_ok with
        | true => exact .inr (.inr (.inl ⟨rfl, rfl, rfl⟩))
        | false =>
          cases hf : env.fallback_ok with
          | true => exact .inr (.inr (.inr (.inl ⟨rfl, rfl, rfl, rfl⟩)))
          | false => exact .inr (.inr (.inr (.inr ⟨rfl, rfl, rfl, rfl⟩)))

/-- Lookup at a cons unfolds to a conditional. -/
theorem Obj.lookup_cons (kv : String × Json) (rest : Obj) (k : String) :
    Obj.lookup (kv :: rest) k
      = if kv.1 == k then some kv.2 else Obj.lookup rest k := by
  unfold Obj.lookup
  rw [List.find?_cons]
  by_cases h : kv.1 = k
  · simp [beq_iff_eq.mpr h]
  · simp [beq_eq_false_iff_ne.mpr h]

/-- A Boolean hypothesis that is not `true` is `false`. -/
theorem bool_eq_false {b : Bool} (h : ¬ b = true) : b = false := by
  cases b
  · rfl
  · exact absurd rfl h

/-- Overwriting the binding of `k` in place makes `k` resolve to the new
value, provided `k` is bound. -/
theorem Obj.lookup_map_replace_self (o : Obj) (k : String) (v : Json)
    (h : o.any (fun kv => kv.1 == k) = true) :
    Obj.lookup (o.map (fun kv => if kv.1 == k then (kv.1, v) else kv)) k
      = some v := by
  induction o with
  | nil => simp at h
  | cons kv rest ih =>
    rw [List.map_cons]
    by_cases hk : kv.1 = k
    · simp [Obj.lookup_cons, beq_iff_eq.mpr hk]
    · have hb := beq_eq_false_iff_ne.mpr hk
      rw [List.any_cons] at h
      rw [hb, Bool.false_or] at h
      simpa [Obj.lookup_cons, hb] using ih h

/-- Appending a binding of `k` at the end makes `k` resolve to it, provided
`k` was unbound. -/
theorem Obj.lookup_append_self (o : Obj) (k : String) (v : Json)
    (h : o.any (fun kv => kv.1 == k) = false) :
    Obj.lookup (o ++ [(k, v)]) k = some v := by
  induction o with
  | nil => simp [Obj.lookup_cons, Obj.lookup]
  | cons kv rest ih =>
    rw [List.any_cons] at h
    have hb : (kv.1 == k) = false := by
      cases hh : kv.1 == k
      · rfl
      · rw [hh] at h
        simp at h
    rw [hb, Bool.false_or] at h
    rw [List.cons_append]
    simp [Obj.lookup_cons, hb, ih h]

/-- After `d[k] = v`, looking up `k` yields `v`. -/
theorem Obj.lookup_setKey_self (o : Obj) (k : String) (v : Json) :
    Obj.lookup (Obj.setKey o k v) k = some v := by
  unfold Obj.setKey
  by_cases h : o.any (fun kv => kv.1 == k) = true
  · rw [if_pos h]
    exact Obj.lookup_map_replace_self o k v h
  · rw [if_neg h]
    exact Obj.lookup_append_self o k v (bool_eq_false h)

/-- In-place replacement of the binding of `k` does not affect lookups of
other keys. -/
theorem Obj.lookup_map_replace_ne (o : Obj) (k k2 : String) (v : Json)
    (hne : k2 ≠ k) :
    Obj.lookup (o.map (fun kv => if kv.1 == k then (kv.1, v) else kv)) k2
      = Obj.lookup o k2 := by
  induction o with
  | nil => rfl
  | cons kv rest ih =>
    rw [List.map_cons]
    by_cases hk : kv.1 = k
    · have hm : kv.1 ≠ k2 := by
        rw [hk]
        exact fun hc => hne hc.symm
      simpa [beq_iff_eq.mpr hk, Obj.lookup_cons,
        beq_eq_false_iff_ne.mpr hm] using ih
    · by_cases hm : kv.1 = k2
      · simp [beq_eq_false_iff_ne.mpr hk, Obj.lookup_cons, beq_iff_eq.mpr hm]
      · simpa [beq_eq_false_iff_ne.mpr hk, Obj.lookup_cons,
          beq_eq_false_iff_ne.mpr hm] using ih

/-- Appending a binding of `k` at the end does not affect lookups of other
keys. -/
theorem Obj.lookup_append_ne (o : Obj) (k k2 : String) (v : Json)
    (hne : k2 ≠ k) :
    Obj.lookup (o ++ [(k, v)]) k2 = Obj.lookup o k2 := by
  induction o with
  | nil =>
    have hm : k ≠ k2 := fun hc => hne hc.symm
    simp [Obj.lookup_cons, beq_eq_false_iff_ne.mpr hm, Obj.lookup]
  | cons kv rest ih =>
    rw [List.cons_append]
    by_cases hm : kv.1 = k2
    · simp [Obj.lookup_cons, beq_iff_eq.mpr hm]
    · simp [Obj.lookup_cons, beq_eq_false_iff_ne.mpr hm, ih]

/-- `d[k] = v` leaves every other key's binding unchanged. -/
theorem Obj.lookup_setKey_ne (o : Obj) (k k2 : String) (v : Json)
    (hne : k2 ≠ k) :
    Obj.lookup (Obj.setKey o k v) k2 = Obj.lookup o k2 := by
  unfold Obj.setKey
  by_cases h : o.any (fun kv => kv.1 == k) = true
  · rw [if_pos h]
    exact Obj.lookup_map_replace_ne o k k2 v hne
  · rw [if_neg h]
    exact Obj.lookup_append_ne o k k2 v hne

/-- In-place replacement never changes the key list. -/
theorem Obj.keys_map_replace (o : Obj) (k : String) (v : Json) :
    Obj.keys (o.map (fun kv => if kv.1 == k then (kv.1, v) else kv))
      = Obj.keys o := by
  unfold Obj.keys
  rw [List.map_map]
  refine List.map_congr_left (fun kv _ => ?_)
  show (if kv.1 == k then (kv.1, v) else kv).1 = kv.1
  by_cases hk : kv.1 = k
  · rw [if_pos (beq_iff_eq.mpr hk)]
  · rw [if_neg (fun hc => hk (beq_iff_eq.mp hc))]

/-- `d[k] = v` keeps the key list unchanged when `k` is present and appends
`k` when it is absent. -/
theorem Obj.keys_setKey (o : Obj) (k : String) (v : Json) :
    Obj.keys (Obj.setKey o k v) =
      if o.any (fun kv => kv.1 == k) then Obj.keys o else Obj.keys o ++ [k] := by
  unfold Obj.setKey
  by_cases h : o.any (fun kv => kv.1 == k) = true
  · rw [if_pos h, if_pos h]
    exact Obj.keys_map_replace o k v
  · rw [if_neg h, if_neg h]
    simp [Obj.keys]

/-- Appending on the left does not change a short enough tail of characters.
-/
theorem lastChars_append (x a : String) (n : Nat) (h : n ≤ a.length) :
    lastChars (x ++ a) n = lastChars a n := by
  unfold lastChars
  rw [String.data_append, List.reverse_append]
  exact List.take_append_of_le_length (by simpa using h)

/-- Two strings with distinct character tails are distinct whatever is
prepended to them; this is what keeps the descriptor object keys and the
upload-payload object keys apart. -/
theorem append_ne_of_lastChars_ne (a b : String) (n : Nat)
    (hna : n ≤ a.length) (hnb : n ≤ b.length)
    (h : lastChars a n ≠ lastChars b n) (x y : String) : x ++ a ≠ y ++ b := by
  intro he
  exact h (by rw [← lastChars_append x a n hna, he, lastChars_append y b n hnb])

end UploadLambdas

/-! ## Claim theorems -/

namespace UploadLambdas

/-- C6: the canary classifier returns true unconditionally whenever a
`canary` query parameter is present, regardless of the random draw; with no
such parameter it returns true exactly when the one `random.randrange(0,
100)` draw is below the sampling rate `PERCENT_CANARY_UPLOADS`, which is 25.
-/
theorem is_canary_upload_contract (query : Option (List (String × String)))
    (dice_roll : Nat) :
    (hasCanaryQuery query = true → is_canary_upload query dice_roll = true)
    ∧ (hasCanaryQuery query = false →
        (is_canary_upload query dice_roll = true ↔
          dice_roll < PERCENT_CANARY_UPLOADS))
    ∧ PERCENT_CANARY_UPLOADS = 25 := by
  refine ⟨?_, ?_, rfl⟩
  · intro h
    simp [is_canary_upload, h]
  · intro h
    by_cases hd : dice_roll < PERCENT_CANARY_UPLOADS
    · simp [is_canary_upload, h, hd]
    · simp [is_canary_upload, h, hd]

/-- Witness for C6 at concrete inputs: an explicit `canary` parameter forces
classification with a losing dice roll of 99, and without it the roll 10 is
classified by comparison with the sampling rate. -/
theorem is_canary_upload_contract_witness :
    is_canary_upload (some [("canary", "1")]) 99 = true
    ∧ (is_canary_upload none 10 = true ↔ 10 < PERCENT_CANARY_UPLOADS) :=
  ⟨(is_canary_upload_contract (some [("canary", "1")]) 99).1 (by decide),
   (is_canary_upload_contract none 10).2.1 (by decide)⟩

/-- C5: auth-token extraction fails exactly when the lowercased headers hold
no `authorization` entry (`authHeaderRequired`) or its value does not split
into exactly two whitespace-separated components (`authSchemeAndToken`);
otherwise it returns the second component, and no failure other than those
two ever occurs. -/
theorem get_auth_token_contract (headers : List (String × String)) :
    (lookupStr (headers.map (fun kv => (strLower kv.1, kv.2))) "authorization"
        = none →
      get_auth_token headers = .error .authHeaderRequired)
    ∧ (∀ v, lookupStr (headers.map (fun kv => (strLower kv.1, kv.2)))
          "authorization" = some v →
        (pySplit v).length ≠ 2 →
        get_auth_token headers = .error .authSchemeAndToken)
    ∧ (∀ v s t, lookupStr (headers.map (fun kv => (strLower kv.1, kv.2)))
          "authorization" = some v →
        pySplit v = [s, t] → get_auth_token headers = .ok t)
    ∧ (∀ e, get_auth_token headers = .error e →
        e = .authHeaderRequired ∨ e = .authSchemeAndToken) := by
  refine ⟨?_, ?_, ?_, ?_⟩
  · intro h
    simp only [get_auth_token, h]
  · intro v hv hlen
    simp only [get_auth_token, hv]
    cases hs : pySplit v with
    | nil => rfl
    | cons a tl =>
      cases tl with
      | nil => rfl
      | cons b tl2 =>
        cases tl2 with
        | nil => exact absurd (by simp [hs]) hlen
        | cons c tl3 => rfl
  · intro v s t hv hs
    simp only [get_auth_token, hv, hs]
  · intro e he
    cases hl : lookupStr (headers.map fun kv => (strLower kv.1, kv.2))
        "authorization" with
    | none =>
      simp only [get_auth_token, hl] at he
      injection he with h1
      exact .inl h1.symm
    | some v =>
      simp only [get_auth_token, hl] at he
      cases hs : pySplit v with
      | nil =>
        rw [hs] at he
        injection he with h1
        exact .inr h1.symm
      | cons a tl =>
        cases tl with
        | nil =>
          rw [hs] at he
          injection he with h1
          exact .inr h1.symm
        | cons b tl2 =>
          cases tl2 with
          | nil =>
            rw [hs] at he
            exact Except.noConfusion he
          | cons c tl3 =>
            rw [hs] at he
            injection he with h1
            exact .inr h1.symm

/-- Witness for C5 at the test suite's header map: `Authorization: Token
Foo` lowercases to an `authorization` entry splitting into two components,
and extraction returns the token `Foo`. -/
theorem get_auth_token_contract_witness :
    get_auth_token [("Authorization", "Token Foo")] = .ok "Foo" :=
  (get_auth_token_contract [("Authorization", "Token Foo")]).2.2.1
    "Token Foo" "Token" "Foo" (by decide) (by decide)

end UploadLambdas

namespace UploadLambdas

/-- C9 counterexample: when the client metadata already carries a `canary`
key (here `{"canary": false}`), classifying the request canary does not add
a field — the existing field is overwritten in place, so the key list does
not grow by a `canary` entry as the claim states. -/
theorem canary_field_overwrites_existing :
    Uploaders.get_upload_metadata decodeCanaryFalse "e30=" true
      = .ok [("canary", Json.bool true)]
    ∧ Obj.keys [(("canary" : String), Json.bool true)]
        ≠ Obj.keys [(("canary" : String), Json.bool false)] ++ ["canary"] :=
  ⟨rfl, by decide⟩

/-- C9 (amended): when the request is not classified canary the validated
metadata is returned unmodified; when it is classified canary the `canary`
key is set to `true` — appended as a new final field when absent, its
existing value overwritten in place when already present — and the binding
of every other key is unchanged. -/
theorem canary_metadata_mutation (decode : String → Option Json)
    (body : String) (md : Obj) (h : decode body = some (.obj md)) :
    Uploaders.get_upload_metadata decode body false = .ok md
    ∧ Uploaders.get_upload_metadata decode body true
        = .ok (Obj.setKey md "canary" (.bool true))
    ∧ Obj.lookup (Obj.setKey md "canary" (.bool true)) "canary"
        = some (.bool true)
    ∧ (∀ k, k ≠ "canary" →
        Obj.lookup (Obj.setKey md "canary" (.bool true)) k = Obj.lookup md k)
    ∧ Obj.keys (Obj.setKey md "canary" (.bool true))
        = (if md.any (fun kv => kv.1 == "canary") then Obj.keys md
           else Obj.keys md ++ ["canary"]) := by
  refine ⟨?_, ?_, Obj.lookup_setKey_self md "canary" (.bool true),
    fun k hk => Obj.lookup_setKey_ne md "canary" k (.bool true) hk,
    Obj.keys_setKey md "canary" (.bool true)⟩
  · simp [Uploaders.get_upload_metadata, h]
  · simp [Uploaders.get_upload_metadata, h]

/-- Witness for C9 (amended) at `{"a": null}`: no canary leaves the object
alone, canary appends the new field at the end. -/
theorem canary_metadata_mutation_witness :
    Uploaders.get_upload_metadata
        (fun _ => some (.obj [("a", Json.null)])) "e30=" false
      = .ok [("a", Json.null)]
    ∧ Uploaders.get_upload_metadata
        (fun _ => some (.obj [("a", Json.null)])) "e30=" true
      = .ok (Obj.setKey [("a", Json.null)] "canary" (.bool true)) :=
  ⟨(canary_metadata_mutation (fun _ => some (.obj [("a", Json.null)]))
      "e30=" [("a", Json.null)] rfl).1,
   (canary_metadata_mutation (fun _ => some (.obj [("a", Json.null)]))
      "e30=" [("a", Json.null)] rfl).2.1⟩

/-- C4 (behaviour at the failing input): when the body does not decode to a
JSON dict — the decode raises, or yields an array, scalar or null — both
handlers perform no store write and issue no presigned URL, but they do not
return an `{"error": ...}` response either: the exception escapes the
handler (the repository's own test `test_uploads_lambda_bad_metadata`
expects the returned dict `{"error": "Invalid JSON"}` and fails). -/
theorem invalid_body_raises_without_side_effects
    (decode : String → Option Json) (env : Env) (event : Event)
    (h : decode event.body = none
      ∨ ∃ v, decode event.body = some v ∧ v.isDict = false) :
    ((∃ e, (Uploads.generate_log_upload_address_handler decode env event).1
        = .error e)
      ∧ (Uploads.generate_log_upload_address_handler decode env event).2
        = Effects.empty)
    ∧ ((∃ e, (Uploaders.generate_log_upload_address_handler decode env event).1
        = .error e)
      ∧ (Uploaders.generate_log_upload_address_handler decode env event).2
        = Effects.empty) := by
  constructor
  · simp only [Uploads.generate_log_upload_address_handler]
    cases hga : get_auth_token event.headers with
    | error e => exact ⟨⟨e, rfl⟩, rfl⟩
    | ok tok =>
      rcases h with hnone | ⟨v, hv, hdict⟩
      · rw [hnone]
        exact ⟨⟨.invalidJson, rfl⟩, rfl⟩
      · rw [hv]
        cases v with
        | obj fields => exact absurd hdict (by simp [Json.isDict])
        | null => exact ⟨⟨.metadataNotDict, rfl⟩, rfl⟩
        | bool b => exact ⟨⟨.metadataNotDict, rfl⟩, rfl⟩
        | num n => exact ⟨⟨.metadataNotDict, rfl⟩, rfl⟩
        | str s => exact ⟨⟨.metadataNotDict, rfl⟩, rfl⟩
        | arr xs => exact ⟨⟨.metadataNotDict, rfl⟩, rfl⟩
  · simp only [Uploaders.generate_log_upload_address_handler]
    cases hga : get_auth_token event.headers with
    | error e => exact ⟨⟨e, rfl⟩, rfl⟩
    | ok tok =>
      simp only [Uploaders.get_upload_metadata]
      rcases h with hnone | ⟨v, hv, hdict⟩
      · rw [hnone]
        exact ⟨⟨.invalidJson, rfl⟩, rfl⟩
      · rw [hv]
        cases v with
        | obj fields => exact absurd hdict (by simp [Json.isDict])
        | null => exact ⟨⟨.metadataNotDict, rfl⟩, rfl⟩
        | bool b => exact ⟨⟨.metadataNotDict, rfl⟩, rfl⟩
        | num n => exact ⟨⟨.metadataNotDict, rfl⟩, rfl⟩
        | str s => exact ⟨⟨.metadataNotDict, rfl⟩, rfl⟩
        | arr xs => exact ⟨⟨.metadataNotDict, rfl⟩, rfl⟩

/-- Witness for C4 at the repository test's own failing input: body =
base64 of `bad data`, on which `json.loads` raises. -/
theorem invalid_body_raises_without_side_effects_witness :
    ((∃ e, (Uploads.generate_log_upload_address_handler decodeRaises
        envHealthy sampleEvent).1 = .error e)
      ∧ (Uploads.generate_log_upload_address_handler decodeRaises
        envHealthy sampleEvent).2 = Effects.empty)
    ∧ ((∃ e, (Uploaders.generate_log_upload_address_handler decodeRaises
        envHealthy sampleEvent).1 = .error e)
      ∧ (Uploaders.generate_log_upload_address_handler decodeRaises
        envHealthy sampleEvent).2 = Effects.empty) :=
  invalid_body_raises_without_side_effects decodeRaises envHealthy sampleEvent
    (Or.inl rfl)

end UploadLambdas

namespace UploadLambdas

/-- C1: in both handlers, when the preferred-store write raises (and, for
uploaders.py, `FORCE_S3` is unset so the preferred store is actually tried),
the failure is caught inside the handler: whenever a preferred write was
attempted, an S3 fallback write of the very same descriptor JSON is
attempted, a healthy fallback store lets the request complete with a normal
response, and the only exception that can still escape is the fallback
write's own failure — never the preferred store's. -/
theorem preferred_failure_recovered_by_fallback (decode : String → Option Json)
    (env : Env) (event : Event) (hpref : env.preferred_ok = false) :
    ((∀ x ∈ (Uploads.generate_log_upload_address_handler decode env
          event).2.preferredAttempts,
        ∃ p ∈ (Uploads.generate_log_upload_address_handler decode env
          event).2.s3PutAttempts, p.body = x.2)
      ∧ ((Uploads.generate_log_upload_address_handler decode env
            event).2.preferredAttempts ≠ [] → env.fallback_ok = true →
          ∃ resp, (Uploads.generate_log_upload_address_handler decode env
            event).1 = .ok resp)
      ∧ ((Uploads.generate_log_upload_address_handler decode env
            event).2.preferredAttempts ≠ [] →
          ∀ e, (Uploads.generate_log_upload_address_handler decode env
            event).1 = .error e → e = .storeWriteFailed))
    ∧ (env.force_s3 = false →
      (∀ x ∈ (Uploaders.generate_log_upload_address_handler decode env
          event).2.preferredAttempts,
        ∃ p ∈ (Uploaders.generate_log_upload_address_handler decode env
          event).2.s3PutAttempts, p.body = x.2)
      ∧ ((Uploaders.generate_log_upload_address_handler decode env
            event).2.preferredAttempts ≠ [] → env.fallback_ok = true →
          ∃ resp, (Uploaders.generate_log_upload_address_handler decode env
            event).1 = .ok resp)
      ∧ ((Uploaders.generate_log_upload_address_handler decode env
            event).2.preferredAttempts ≠ [] →
          ∀ e, (Uploaders.generate_log_upload_address_handler decode env
            event).1 = .error e → e = .storeWriteFailed)) := by
  constructor
  · rcases uploads_handler_cases decode env event with ⟨e, hcase⟩ |
      ⟨md, hdec, hbr⟩
    · rw [hcase]
      refine ⟨?_, ?_, ?_⟩
      · intro x hx
        simp [Effects.empty] at hx
      · intro habs
        exact absurd rfl habs
      · intro habs
        exact absurd rfl habs
    · rcases hbr with ⟨hp, heq⟩ | ⟨hp, hf, heq⟩ | ⟨hp, hf, heq⟩
      · rw [hpref] at hp
        exact Bool.noConfusion hp
      · rw [heq]
        refine ⟨?_, ?_, ?_⟩
        · intro x hx
          rw [List.mem_singleton] at hx
          subst hx
          exact ⟨_, List.mem_singleton.mpr rfl, rfl⟩
        · intro _ _
          exact ⟨_, rfl⟩
        · intro _ e he
          exact Except.noConfusion he
      · rw [heq]
        refine ⟨?_, ?_, ?_⟩
        · intro x hx
          rw [List.mem_singleton] at hx
          subst hx
          exact ⟨_, List.mem_singleton.mpr rfl, rfl⟩
        · intro _ hff
          rw [hf] at hff
          exact Bool.noConfusion hff
        · intro _ e he
          injection he with h1
          exact h1.symm
  · intro hforce
    rcases uploaders_handler_cases decode env event with ⟨e, hcase⟩ |
      ⟨md, hmd, hbr⟩
    · rw [hcase]
      refine ⟨?_, ?_, ?_⟩
      · intro x hx
        simp [Effects.empty] at hx
      · intro habs
        exact absurd rfl habs
      · intro habs
        exact absurd rfl habs
    · rcases hbr with ⟨hfo, hf, heq⟩ | ⟨hfo, hf, heq⟩ | ⟨hfo, hp, heq⟩ |
        ⟨hfo, hp, hf, heq⟩ | ⟨hfo, hp, hf, heq⟩
      · rw [hforce] at hfo
        exact Bool.noConfusion hfo
      · rw [hforce] at hfo
        exact Bool.noConfusion hfo
      · rw [hpref] at hp
        exact Bool.noConfusion hp
      · rw [heq]
        refine ⟨?_, ?_, ?_⟩
        · intro x hx
          rw [List.mem_singleton] at hx
          subst hx
          exact ⟨_, List.mem_singleton.mpr rfl, rfl⟩
        · intro _ _
          exact ⟨_, rfl⟩
        · intro _ e he
          exact Except.noConfusion he
      · rw [heq]
        refine ⟨?_, ?_, ?_⟩
        · intro x hx
          rw [List.mem_singleton] at hx
          subst hx
          exact ⟨_, List.mem_singleton.mpr rfl, rfl⟩
        · intro _ hff
          rw [hf] at hff
          exact Bool.noConfusion hff
        · intro _ e he
          injection he with h1
          exact h1.symm

/-- Witness for C1: with the preferred store down and the fallback healthy,
both handlers on the test event complete with a normal response, the
preferred failure never reaching the caller. -/
theorem preferred_failure_recovered_by_fallback_witness :
    (∃ resp, (Uploads.generate_log_upload_address_handler decodeEmptyObj
      envPreferredDown sampleEvent).1 = .ok resp)
    ∧ (∃ resp, (Uploaders.generate_log_upload_address_handler decodeEmptyObj
      envPreferredDown sampleEvent).1 = .ok resp) :=
  ⟨(preferred_failure_recovered_by_fallback decodeEmptyObj envPreferredDown
      sampleEvent rfl).1.2.1 (List.cons_ne_nil _ _) rfl,
   ((preferred_failure_recovered_by_fallback decodeEmptyObj envPreferredDown
      sampleEvent rfl).2 rfl).2.1 (List.cons_ne_nil _ _) rfl⟩

end UploadLambdas

namespace UploadLambdas

/-- C2: every presigned PUT URL either handler requests is for the object
key `raw/{timestamp_path}/{shortid}.{suffix}` with the suffix exactly
`canary.log` when the request is classified canary and exactly `power.log`
otherwise, with content type `text/plain`, expiration 86400 seconds, method
PUT, against the raw-uploads bucket.  (uploads.py uses the handler's one
timestamp rendering, uploaders.py the rendering taken inside
`get_presigned_put_url`.) -/
theorem presigned_put_url_contract (decode : String → Option Json)
    (env : Env) (event : Event) :
    (∀ c ∈ (Uploads.generate_log_upload_address_handler decode env
        event).2.presignCalls,
      c.key = "raw/" ++ env.ts_path ++ "/" ++ env.shortid ++ "."
          ++ (if is_canary_upload event.query env.dice_roll then "canary.log"
              else "power.log")
        ∧ c.contentType = "text/plain" ∧ c.expiresIn = 86400
        ∧ c.httpMethod = "PUT" ∧ c.bucket = RAW_UPLOADS_BUCKET)
    ∧ (∀ c ∈ (Uploaders.generate_log_upload_address_handler decode env
        event).2.presignCalls,
      c.key = "raw/" ++ env.ts_path_presign ++ "/" ++ env.shortid ++ "."
          ++ (if is_canary_upload event.query env.dice_roll then "canary.log"
              else "power.log")
        ∧ c.contentType = "text/plain" ∧ c.expiresIn = 86400
        ∧ c.httpMethod = "PUT" ∧ c.bucket = RAW_UPLOADS_BUCKET) := by
  constructor
  · rcases uploads_handler_cases decode env event with ⟨e, hcase⟩ |
      ⟨md, hdec, hbr⟩
    · rw [hcase]
      intro c hc
      simp [Effects.empty] at hc
    · rcases hbr with ⟨hp, heq⟩ | ⟨hp, hf, heq⟩ | ⟨hp, hf, heq⟩ <;> rw [heq]
      · intro c hc
        rw [List.mem_singleton] at hc
        subst hc
        refine ⟨?_, rfl, rfl, rfl, rfl⟩
        cases hb : is_canary_upload event.query env.dice_roll
        · rfl
        · rfl
      · intro c hc
        rw [List.mem_singleton] at hc
        subst hc
        refine ⟨?_, rfl, rfl, rfl, rfl⟩
        cases hb : is_canary_upload event.query env.dice_roll
        · rfl
        · rfl
      · intro c hc
        simp at hc
  · rcases uploaders_handler_cases decode env event with ⟨e, hcase⟩ |
      ⟨md, hmd, hbr⟩
    · rw [hcase]
      intro c hc
      simp [Effects.empty] at hc
    · rcases hbr with ⟨hfo, hf, heq⟩ | ⟨hfo, hf, heq⟩ | ⟨hfo, hp, heq⟩ |
        ⟨hfo, hp, hf, heq⟩ | ⟨hfo, hp, hf, heq⟩ <;> rw [heq]
      · intro c hc
        rw [List.mem_singleton] at hc
        subst hc
        refine ⟨?_, rfl, rfl, rfl, rfl⟩
        cases hb : is_canary_upload event.query env.dice_roll
        · rfl
        · rfl
      · intro c hc
        simp at hc
      · intro c hc
        rw [List.mem_singleton] at hc
        subst hc
        refine ⟨?_, rfl, rfl, rfl, rfl⟩
        cases hb : is_canary_upload event.query env.dice_roll
        · rfl
        · rfl
      · intro c hc
        rw [List.mem_singleton] at hc
        subst hc
        refine ⟨?_, rfl, rfl, rfl, rfl⟩
        cases hb : is_canary_upload event.query env.dice_roll
        · rfl
        · rfl
      · intro c hc
        simp at hc

/-- Witness for C2: the one presigned call of a healthy uploads.py run on
the test event carries the `power.log` key, `text/plain`, 86400 seconds. -/
theorem presigned_put_url_contract_witness :
    (let c : PresignCall :=
      { bucket := "hsreplaynet-uploads",
        key := "raw/2016/01/02/03/04/sampleshortid123456789.power.log",
        contentType := "text/plain", expiresIn := 86400, httpMethod := "PUT" }
     c.key = "raw/" ++ envHealthy.ts_path ++ "/" ++ envHealthy.shortid ++ "."
        ++ (if is_canary_upload sampleEvent.query envHealthy.dice_roll then
              "canary.log" else "power.log")
      ∧ c.contentType = "text/plain" ∧ c.expiresIn = 86400
      ∧ c.httpMethod = "PUT" ∧ c.bucket = RAW_UPLOADS_BUCKET) :=
  (presigned_put_url_contract decodeEmptyObj envHealthy sampleEvent).1
    { bucket := "hsreplaynet-uploads",
      key := "raw/2016/01/02/03/04/sampleshortid123456789.power.log",
      contentType := "text/plain", expiresIn := 86400, httpMethod := "PUT" }
    (by decide)

end UploadLambdas

namespace UploadLambdas

/-- C3 counterexample: with `FORCE_S3` set, a healthy preferred store and a
completed request, uploaders.py still writes the descriptor to the S3
fallback while never attempting (let alone failing) the preferred write —
so "the fallback write is attempted only when the preferred write failed"
does not hold of the code as a whole. -/
theorem force_s3_fallback_without_preferred_failure :
    envForceS3.preferred_ok = true
    ∧ (Uploaders.generate_log_upload_address_handler decodeEmptyObj
        envForceS3 sampleEvent).1.isOk = true
    ∧ (Uploaders.generate_log_upload_address_handler decodeEmptyObj
        envForceS3 sampleEvent).2.s3PutAttempts.length = 1
    ∧ (Uploaders.generate_log_upload_address_handler decodeEmptyObj
        envForceS3 sampleEvent).2.s3Puts.length = 1
    ∧ (Uploaders.generate_log_upload_address_handler decodeEmptyObj
        envForceS3 sampleEvent).2.preferredAttempts = [] :=
  ⟨rfl, by decide, by decide, by decide, rfl⟩

/-- C3 (amended): for every request whose handling completes, the descriptor
is committed to exactly one of the two stores; outside `FORCE_S3` mode the
fallback write is attempted only after a failed preferred attempt and a
healthy preferred store keeps S3 untouched, while in `FORCE_S3` mode
(uploaders.py only) the preferred store is skipped entirely and the
descriptor goes directly to the fallback store. -/
theorem descriptor_written_to_exactly_one_store (decode : String → Option Json)
    (env : Env) (event : Event) :
    (∀ resp, (Uploads.generate_log_upload_address_handler decode env
        event).1 = .ok resp →
      (Uploads.generate_log_upload_address_handler decode env
          event).2.preferredWrites.length
        + (Uploads.generate_log_upload_address_handler decode env
          event).2.s3Puts.length = 1
      ∧ ((Uploads.generate_log_upload_address_handler decode env
            event).2.s3PutAttempts ≠ [] →
          env.preferred_ok = false
          ∧ (Uploads.generate_log_upload_address_handler decode env
            event).2.preferredAttempts ≠ [])
      ∧ (env.preferred_ok = true →
          (Uploads.generate_log_upload_address_handler decode env
            event).2.s3PutAttempts = []))
    ∧ (∀ resp, (Uploaders.generate_log_upload_address_handler decode env
        event).1 = .ok resp →
      (Uploaders.generate_log_upload_address_handler decode env
          event).2.preferredWrites.length
        + (Uploaders.generate_log_upload_address_handler decode env
          event).2.s3Puts.length = 1
      ∧ (env.force_s3 = false →
          ((Uploaders.generate_log_upload_address_handler decode env
              event).2.s3PutAttempts ≠ [] →
            env.preferred_ok = false
            ∧ (Uploaders.generate_log_upload_address_handler decode env
              event).2.preferredAttempts ≠ [])
          ∧ (env.preferred_ok = true →
            (Uploaders.generate_log_upload_address_handler decode env
              event).2.s3PutAttempts = []))
      ∧ (env.force_s3 = true →
          (Uploaders.generate_log_upload_address_handler decode env
            event).2.preferredAttempts = [])) := by
  constructor
  · rcases uploads_handler_cases decode env event with ⟨e, hcase⟩ |
      ⟨md, hdec, hbr⟩
    · rw [hcase]
      intro resp hresp
      exact Except.noConfusion hresp
    · rcases hbr with ⟨hp, heq⟩ | ⟨hp, hf, heq⟩ | ⟨hp, hf, heq⟩ <;> rw [heq]
      · intro resp hresp
        refine ⟨rfl, ?_, fun _ => rfl⟩
        intro habs
        exact absurd rfl habs
      · intro resp hresp
        refine ⟨rfl, ?_, ?_⟩
        · intro _
          exact ⟨hp, List.cons_ne_nil _ _⟩
        · intro hpt
          rw [hp] at hpt
          exact Bool.noConfusion hpt
      · intro resp hresp
        exact Except.noConfusion hresp
  · rcases uploaders_handler_cases decode env event with ⟨e, hcase⟩ |
      ⟨md, hmd, hbr⟩
    · rw [hcase]
      intro resp hresp
      exact Except.noConfusion hresp
    · rcases hbr with ⟨hfo, hf, heq⟩ | ⟨hfo, hf, heq⟩ | ⟨hfo, hp, heq⟩ |
        ⟨hfo, hp, hf, heq⟩ | ⟨hfo, hp, hf, heq⟩ <;> rw [heq]
      · intro resp hresp
        refine ⟨rfl, ?_, fun _ => rfl⟩
        intro hfof
        rw [hfo] at hfof
        exact Bool.noConfusion hfof
      · intro resp hresp
        exact Except.noConfusion hresp
      · intro resp hresp
        refine ⟨rfl, ?_, ?_⟩
        · intro _
          refine ⟨?_, fun _ => rfl⟩
          intro habs
          exact absurd rfl habs
        · intro hfot
          rw [hfo] at hfot
          exact Bool.noConfusion hfot
      · intro resp hresp
        refine ⟨rfl, ?_, ?_⟩
        · intro _
          refine ⟨?_, ?_⟩
          · intro _
            exact ⟨hp, List.cons_ne_nil _ _⟩
          · intro hpt
            rw [hp] at hpt
            exact Bool.noConfusion hpt
        · intro hfot
          rw [hfo] at hfot
          exact Bool.noConfusion hfot
      · intro resp hresp
        exact Except.noConfusion hresp

/-- Witness for C3 (amended): a healthy uploads.py run on the test event
commits to exactly one store and leaves S3 untouched. -/
theorem descriptor_written_to_exactly_one_store_witness :
    (Uploads.generate_log_upload_address_handler decodeEmptyObj envHealthy
        sampleEvent).2.preferredWrites.length
      + (Uploads.generate_log_upload_address_handler decodeEmptyObj envHealthy
        sampleEvent).2.s3Puts.length = 1
    ∧ (Uploads.generate_log_upload_address_handler decodeEmptyObj envHealthy
        sampleEvent).2.s3PutAttempts = [] :=
  ⟨((descriptor_written_to_exactly_one_store decodeEmptyObj envHealthy
      sampleEvent).1
    { put_url := presigned_url_string
        { bucket := "hsreplaynet-uploads",
          key := "raw/2016/01/02/03/04/sampleshortid123456789.power.log",
          contentType := "text/plain", expiresIn := 86400,
          httpMethod := "PUT" },
      shortid := "sampleshortid123456789",
      url := "https://hsreplay.net/uploads/upload/sampleshortid123456789/" }
    rfl).1,
   ((descriptor_written_to_exactly_one_store decodeEmptyObj envHealthy
      sampleEvent).1
    { put_url := presigned_url_string
        { bucket := "hsreplaynet-uploads",
          key := "raw/2016/01/02/03/04/sampleshortid123456789.power.log",
          contentType := "text/plain", expiresIn := 86400,
          httpMethod := "PUT" },
      shortid := "sampleshortid123456789",
      url := "https://hsreplay.net/uploads/upload/sampleshortid123456789/" }
    rfl).2.2 rfl⟩

end UploadLambdas

namespace UploadLambdas

/-- C7 counterexample: in an uploaders.py fallback run, the presigned key
embeds the timestamp path rendered at presign time while the fallback
descriptor key is `descriptors/{shortid}.json` and contains no timestamp
path at all — so "the same value is used both in the fallback descriptor
object key and in the presigned upload key" fails on that handler. -/
theorem uploaders_fallback_key_lacks_timestamp :
    (Uploaders.generate_log_upload_address_handler decodeEmptyObj
        envPreferredDown sampleEvent).2.s3PutAttempts.map (fun p => p.key)
      = ["descriptors/sampleshortid123456789.json"]
    ∧ (Uploaders.generate_log_upload_address_handler decodeEmptyObj
        envPreferredDown sampleEvent).2.presignCalls.map (fun c => c.key)
      = ["raw/2016/01/02/03/05/sampleshortid123456789.power.log"]
    ∧ strContainsSub "raw/2016/01/02/03/05/sampleshortid123456789.power.log"
        "2016/01/02/03/05" = true
    ∧ strContainsSub "descriptors/sampleshortid123456789.json"
        "2016/01/02/03/05" = false :=
  ⟨by decide, by decide, by decide, by decide⟩

/-- C7 (amended): in uploads.py the timestamp path is rendered once per
request and that one value appears in both the fallback descriptor key and
the presigned upload key; in uploaders.py the fallback descriptor key is
`descriptors/{shortid}.json`, carrying no timestamp path, and only the
presigned key embeds one (rendered inside the presign step). -/
theorem timestamp_path_usage (decode : String → Option Json) (env : Env)
    (event : Event) :
    (∀ p ∈ (Uploads.generate_log_upload_address_handler decode env
        event).2.s3PutAttempts,
      p.key = "raw/" ++ env.ts_path ++ "/" ++ env.shortid
        ++ ".descriptor.json")
    ∧ (∀ c ∈ (Uploads.generate_log_upload_address_handler decode env
        event).2.presignCalls,
      c.key = "raw/" ++ env.ts_path ++ "/" ++ env.shortid ++ "."
        ++ (if is_canary_upload event.query env.dice_roll then "canary.log"
            else "power.log"))
    ∧ (∀ p ∈ (Uploaders.generate_log_upload_address_handler decode env
        event).2.s3PutAttempts,
      p.key = "descriptors/" ++ env.shortid ++ ".json") := by
  refine ⟨?_, ?_, ?_⟩
  · rcases uploads_handler_cases decode env event with ⟨e, hcase⟩ |
      ⟨md, hdec, hbr⟩
    · rw [hcase]
      intro p hp
      simp [Effects.empty] at hp
    · rcases hbr with ⟨hp, heq⟩ | ⟨hp, hf, heq⟩ | ⟨hp, hf, heq⟩ <;> rw [heq]
      · intro p hp
        simp at hp
      · intro p hp
        rw [List.mem_singleton] at hp
        subst hp
        rfl
      · intro p hp
        rw [List.mem_singleton] at hp
        subst hp
        rfl
  · rcases uploads_handler_cases decode env event with ⟨e, hcase⟩ |
      ⟨md, hdec, hbr⟩
    · rw [hcase]
      intro c hc
      simp [Effects.empty] at hc
    · rcases hbr with ⟨hp, heq⟩ | ⟨hp, hf, heq⟩ | ⟨hp, hf, heq⟩ <;> rw [heq]
      · intro c hc
        rw [List.mem_singleton] at hc
        subst hc
        cases hb : is_canary_upload event.query env.dice_roll
        · rfl
        · rfl
      · intro c hc
        rw [List.mem_singleton] at hc
        subst hc
        cases hb : is_canary_upload event.query env.dice_roll
        · rfl
        · rfl
      · intro c hc
        simp at hc
  · rcases uploaders_handler_cases decode env event with ⟨e, hcase⟩ |
      ⟨md, hmd, hbr⟩
    · rw [hcase]
      intro p hp
      simp [Effects.empty] at hp
    · rcases hbr with ⟨hfo, hf, heq⟩ | ⟨hfo, hf, heq⟩ | ⟨hfo, hp, heq⟩ |
        ⟨hfo, hp, hf, heq⟩ | ⟨hfo, hp, hf, heq⟩ <;> rw [heq]
      · intro p hp
        rw [List.mem_singleton] at hp
        subst hp
        rfl
      · intro p hp
        rw [List.mem_singleton] at hp
        subst hp
        rfl
      · intro p hp
        simp at hp
      · intro p hp
        rw [List.mem_singleton] at hp
        subst hp
        rfl
      · intro p hp
        rw [List.mem_singleton] at hp
        subst hp
        rfl

/-- Witness for C7 (amended): in an uploads.py run with a broken preferred
store, the one fallback write's key carries the same timestamp path that the
run's presigned key carries. -/
theorem timestamp_path_usage_witness :
    (Uploads.save_descriptor_to_s3
        { gateway_headers := sampleEvent.headers,
          shortid := envPreferredDown.shortid,
          source_ip := sampleEvent.source_ip,
          upload_metadata := [],
          event := sampleEvent.sansBody } envPreferredDown.ts_path).key
      = "raw/" ++ envPreferredDown.ts_path ++ "/" ++ envPreferredDown.shortid
        ++ ".descriptor.json" :=
  (timestamp_path_usage decodeEmptyObj envPreferredDown sampleEvent).1 _
    (List.mem_singleton.mpr rfl)

end UploadLambdas

namespace UploadLambdas

/-- C8: every fallback descriptor write goes to a descriptor-reserved key —
`raw/{timestamp_path}/{shortid}.descriptor.json` for uploads.py, and
`descriptors/{shortid}.json` in the dedicated descriptors bucket for
uploaders.py — whose body is the JSON object of the full descriptor (all of
its dict entries, keyed by the request's shortid), and that key can never
collide with any upload-payload key `raw/{ts}/{sid}.power.log` /
`.canary.log`. -/
theorem fallback_descriptor_namespace (decode : String → Option Json)
    (env : Env) (event : Event) :
    (∀ p ∈ (Uploads.generate_log_upload_address_handler decode env
        event).2.s3PutAttempts,
      p.key = "raw/" ++ env.ts_path ++ "/" ++ env.shortid
          ++ ".descriptor.json"
        ∧ (∃ fs, p.body = Json.obj fs
            ∧ Obj.keys fs = ["gateway_headers", "shortid", "source_ip",
                "upload_metadata", "event"]
            ∧ Obj.lookup fs "shortid" = some (.str env.shortid))
        ∧ (∀ ts sid c, p.key ≠ "raw/" ++ ts ++ "/" ++ sid ++ "."
            ++ (if !c then "power.log" else "canary.log")))
    ∧ (∀ p ∈ (Uploaders.generate_log_upload_address_handler decode env
        event).2.s3PutAttempts,
      p.key = "descriptors/" ++ env.shortid ++ ".json"
        ∧ p.bucket = DESCRIPTORS_BUCKET
        ∧ (∃ fs, p.body = Json.obj fs
            ∧ Obj.keys fs = ["shortid", "upload_metadata", "event"]
            ∧ Obj.lookup fs "shortid" = some (.str env.shortid))
        ∧ (∀ ts sid c, p.key ≠ "raw/" ++ ts ++ "/" ++ sid ++ "."
            ++ (if !c then "power.log" else "canary.log"))) := by
  constructor
  · rcases uploads_handler_cases decode env event with ⟨e, hcase⟩ |
      ⟨md, hdec, hbr⟩
    · rw [hcase]
      intro p hp
      simp [Effects.empty] at hp
    · rcases hbr with ⟨hp, heq⟩ | ⟨hp, hf, heq⟩ | ⟨hp, hf, heq⟩ <;> rw [heq]
      · intro p hp
        simp at hp
      · intro p hp
        rw [List.mem_singleton] at hp
        subst hp
        refine ⟨rfl, ⟨_, rfl, rfl, rfl⟩, ?_⟩
        intro ts sid c
        cases c
        · exact append_ne_of_lastChars_ne ".descriptor.json" "power.log" 5
            (by decide) (by decide) (by decide) _ _
        · exact append_ne_of_lastChars_ne ".descriptor.json" "canary.log" 5
            (by decide) (by decide) (by decide) _ _
      · intro p hp
        rw [List.mem_singleton] at hp
        subst hp
        refine ⟨rfl, ⟨_, rfl, rfl, rfl⟩, ?_⟩
        intro ts sid c
        cases c
        · exact append_ne_of_lastChars_ne ".descriptor.json" "power.log" 5
            (by decide) (by decide) (by decide) _ _
        · exact append_ne_of_lastChars_ne ".descriptor.json" "canary.log" 5
            (by decide) (by decide) (by decide) _ _
  · rcases uploaders_handler_cases decode env event with ⟨e, hcase⟩ |
      ⟨md, hmd, hbr⟩
    · rw [hcase]
      intro p hp
      simp [Effects.empty] at hp
    · rcases hbr with ⟨hfo, hf, heq⟩ | ⟨hfo, hf, heq⟩ | ⟨hfo, hp, heq⟩ |
        ⟨hfo, hp, hf, heq⟩ | ⟨hfo, hp, hf, heq⟩ <;> rw [heq]
      · intro p hp
        rw [List.mem_singleton] at hp
        subst hp
        refine ⟨rfl, rfl, ⟨_, rfl, rfl, rfl⟩, ?_⟩
        intro ts sid c
        cases c
        · exact append_ne_of_lastChars_ne ".json" "power.log" 5
            (by decide) (by decide) (by decide) _ _
        · exact append_ne_of_lastChars_ne ".json" "canary.log" 5
            (by decide) (by decide) (by decide) _ _
      · intro p hp
        rw [List.mem_singleton] at hp
        subst hp
        refine ⟨rfl, rfl, ⟨_, rfl, rfl, rfl⟩, ?_⟩
        intro ts sid c
        cases c
        · exact append_ne_of_lastChars_ne ".json" "power.log" 5
            (by decide) (by decide) (by decide) _ _
        · exact append_ne_of_lastChars_ne ".json" "canary.log" 5
            (by decide) (by decide) (by decide) _ _
      · intro p hp
        simp at hp
      · intro p hp
        rw [List.mem_singleton] at hp
        subst hp
        refine ⟨rfl, rfl, ⟨_, rfl, rfl, rfl⟩, ?_⟩
        intro ts sid c
        cases c
        · exact append_ne_of_lastChars_ne ".json" "power.log" 5
            (by decide) (by decide) (by decide) _ _
        · exact append_ne_of_lastChars_ne ".json" "canary.log" 5
            (by decide) (by decide) (by decide) _ _
      · intro p hp
        rw [List.mem_singleton] at hp
        subst hp
        refine ⟨rfl, rfl, ⟨_, rfl, rfl, rfl⟩, ?_⟩
        intro ts sid c
        cases c
        · exact append_ne_of_lastChars_ne ".json" "power.log" 5
            (by decide) (by decide) (by decide) _ _
        · exact append_ne_of_lastChars_ne ".json" "canary.log" 5
            (by decide) (by decide) (by decide) _ _

/-- Witness for C8: the fallback write of an uploads.py run with a broken
preferred store goes to the `.descriptor.json` key of the request, distinct
from the run's own payload key. -/
theorem fallback_descriptor_namespace_witness :
    (Uploads.save_descriptor_to_s3
        { gateway_headers := sampleEvent.headers,
          shortid := envPreferredDown.shortid,
          source_ip := sampleEvent.source_ip,
          upload_metadata := [],
          event := sampleEvent.sansBody } envPreferredDown.ts_path).key
      = "raw/" ++ envPreferredDown.ts_path ++ "/" ++ envPreferredDown.shortid
        ++ ".descriptor.json"
    ∧ (Uploads.save_descriptor_to_s3
        { gateway_headers := sampleEvent.headers,
          shortid := envPreferredDown.shortid,
          source_ip := sampleEvent.source_ip,
          upload_metadata := [],
          event := sampleEvent.sansBody } envPreferredDown.ts_path).key
      ≠ "raw/" ++ "2016/01/02/03/04" ++ "/" ++ "sampleshortid123456789"
        ++ "." ++ (if !false then "power.log" else "canary.log") :=
  ⟨((fallback_descriptor_namespace decodeEmptyObj envPreferredDown
      sampleEvent).1 _ (List.mem_singleton.mpr rfl)).1,
   ((fallback_descriptor_namespace decodeEmptyObj envPreferredDown
      sampleEvent).1 _ (List.mem_singleton.mpr rfl)).2.2
     "2016/01/02/03/04" "sampleshortid123456789" false⟩

end UploadLambdas

namespace UploadLambdas

/-- Helper: the JSON rendering of the captured event context holds exactly
the popped event's entries — `headers`, the optional `query`, `source_ip` —
and no `body` key. -/
theorem sansBody_toJson_spec (event : Event) :
    ∃ fs, EventContext.toJson (Event.sansBody event) = Json.obj fs
      ∧ ¬ "body" ∈ Obj.keys fs
      ∧ Obj.lookup fs "headers" = some (headersToJson event.headers)
      ∧ Obj.lookup fs "source_ip" = some (Json.str event.source_ip)
      ∧ (∀ q, event.query = some q →
          Obj.lookup fs "query" = some (headersToJson q))
      ∧ (event.query = none → Obj.lookup fs "query" = none) := by
  cases hq : event.query with
  | none =>
    refine ⟨[("headers", headersToJson event.headers),
        ("source_ip", Json.str event.source_ip)], ?_, by simp [Obj.keys],
      rfl, rfl, ?_, fun _ => rfl⟩
    · simp [EventContext.toJson, Event.sansBody, hq]
    · intro q hqq
      exact Option.noConfusion hqq
  | some q0 =>
    refine ⟨[("headers", headersToJson event.headers),
        ("query", headersToJson q0),
        ("source_ip", Json.str event.source_ip)], ?_, by simp [Obj.keys],
      rfl, rfl, ?_, ?_⟩
    · simp [EventContext.toJson, Event.sansBody, hq]
    · intro q hqq
      injection hqq with h1
      rw [h1]
      rfl
    · intro hqq
      exact Option.noConfusion hqq

/-- C10: both handlers pop the `body` entry off the event before building
the descriptor, so the `event` member of every descriptor value either store
ever receives is the JSON object of the popped event — it has no `body` key,
while the `headers`, `source_ip` and (when present) `query` entries are
preserved verbatim. -/
theorem descriptor_event_excludes_body (decode : String → Option Json)
    (env : Env) (event : Event) :
    (∀ x ∈ (Uploads.generate_log_upload_address_handler decode env
        event).2.preferredAttempts,
      Json.lookupKey x.2 "event"
        = some (EventContext.toJson (Event.sansBody event)))
    ∧ (∀ p ∈ (Uploads.generate_log_upload_address_handler decode env
        event).2.s3PutAttempts,
      Json.lookupKey p.body "event"
        = some (EventContext.toJson (Event.sansBody event)))
    ∧ (∀ x ∈ (Uploaders.generate_log_upload_address_handler decode env
        event).2.preferredAttempts,
      Json.lookupKey x.2 "event"
        = some (EventContext.toJson (Event.sansBody event)))
    ∧ (∀ p ∈ (Uploaders.generate_log_upload_address_handler decode env
        event).2.s3PutAttempts,
      Json.lookupKey p.body "event"
        = some (EventContext.toJson (Event.sansBody event)))
    ∧ (∃ fs, EventContext.toJson (Event.sansBody event) = Json.obj fs
        ∧ ¬ "body" ∈ Obj.keys fs
        ∧ Obj.lookup fs "headers" = some (headersToJson event.headers)
        ∧ Obj.lookup fs "source_ip" = some (Json.str event.source_ip)
        ∧ (∀ q, event.query = some q →
            Obj.lookup fs "query" = some (headersToJson q))
        ∧ (event.query = none → Obj.lookup fs "query" = none)) := by
  refine ⟨?_, ?_, ?_, ?_, sansBody_toJson_spec event⟩
  · rcases uploads_handler_cases decode env event with ⟨e, hcase⟩ |
      ⟨md, hdec, hbr⟩
    · rw [hcase]
      intro x hx
      simp [Effects.empty] at hx
    · rcases hbr with ⟨hp, heq⟩ | ⟨hp, hf, heq⟩ | ⟨hp, hf, heq⟩ <;> rw [heq]
        <;> intro x hx <;> rw [List.mem_singleton] at hx <;> subst hx <;> rfl
  · rcases uploads_handler_cases decode env event with ⟨e, hcase⟩ |
      ⟨md, hdec, hbr⟩
    · rw [hcase]
      intro p hp
      simp [Effects.empty] at hp
    · rcases hbr with ⟨hp, heq⟩ | ⟨hp, hf, heq⟩ | ⟨hp, hf, heq⟩ <;> rw [heq]
      · intro p hp
        simp at hp
      · intro p hp
        rw [List.mem_singleton] at hp
        subst hp
        rfl
      · intro p hp
        rw [List.mem_singleton] at hp
        subst hp
        rfl
  · rcases uploaders_handler_cases decode env event with ⟨e, hcase⟩ |
      ⟨md, hmd, hbr⟩
    · rw [hcase]
      intro x hx
      simp [Effects.empty] at hx
    · rcases hbr with ⟨hfo, hf, heq⟩ | ⟨hfo, hf, heq⟩ | ⟨hfo, hp, heq⟩ |
        ⟨hfo, hp, hf, heq⟩ | ⟨hfo, hp, hf, heq⟩ <;> rw [heq]
      · intro x hx
        simp at hx
      · intro x hx
        simp at hx
      · intro x hx
        rw [List.mem_singleton] at hx
        subst hx
        rfl
      · intro x hx
        rw [List.mem_singleton] at hx
        subst hx
        rfl
      · intro x hx
        rw [List.mem_singleton] at hx
        subst hx
        rfl
  · rcases uploaders_handler_cases decode env event with ⟨e, hcase⟩ |
      ⟨md, hmd, hbr⟩
    · rw [hcase]
      intro p hp
      simp [Effects.empty] at hp
    · rcases hbr with ⟨hfo, hf, heq⟩ | ⟨hfo, hf, heq⟩ | ⟨hfo, hp, heq⟩ |
        ⟨hfo, hp, hf, heq⟩ | ⟨hfo, hp, hf, heq⟩ <;> rw [heq]
      · intro p hp
        rw [List.mem_singleton] at hp
        subst hp
        rfl
      · intro p hp
        rw [List.mem_singleton] at hp
        subst hp
        rfl
      · intro p hp
        simp at hp
      · intro p hp
        rw [List.mem_singleton] at hp
        subst hp
        rfl
      · intro p hp
        rw [List.mem_singleton] at hp
        subst hp
        rfl

/-- Witness for C10: the descriptor Redis receives in a healthy uploads.py
run on the test event captures the popped event, whose JSON object has no
`body` key. -/
theorem descriptor_event_excludes_body_witness :
    Json.lookupKey (("sampleshortid123456789",
        (Uploads.Descriptor.toJson
          { gateway_headers := sampleEvent.headers,
            shortid := envHealthy.shortid,
            source_ip := sampleEvent.source_ip,
            upload_metadata := [],
            event := sampleEvent.sansBody })) : String × Json).2 "event"
      = some (EventContext.toJson (Event.sansBody sampleEvent)) :=
  (descriptor_event_excludes_body decodeEmptyObj envHealthy sampleEvent).1 _
    (List.mem_singleton.mpr rfl)

end UploadLambdas
